import Mathlib

/-!
Verification of the Asteroid Impact calculator
(`Impact Radius/impact.py`, function `calculate_impact_radius`).

The physics and classification model is shallowly embedded over `ℝ`
(Python floats are modelled as real numbers, `x ** (1/3)` as the real
power `x ^ ((1:ℝ)/3)`).  The input validator operates on a model of
Python call arguments (`PyVal`): an argument is either a number — which
may be a finite real, `+inf`, `-inf` or `nan`, with the IEEE behaviour
of the comparison `x <= 0` spelled out case by case — or a non-numeric
value such as a string.
-/

namespace AsteroidImpact

/-- A Python numeric value (`int` or `float`): a finite real, an
infinity, or `nan`. -/
inductive PyNum where
  | finite (x : ℝ)
  | posInf
  | negInf
  | nan

/-- An argument passed to `calculate_impact_radius`: either a numeric
value (so `isinstance(x, (int, float))` holds) or anything else. -/
inductive PyVal where
  | num (v : PyNum)
  | nonNum

/-- The Python comparison `v <= 0` on a numeric value: IEEE semantics,
so `-inf <= 0` is true while `+inf <= 0` and `nan <= 0` are false. -/
def PyNum.leZero : PyNum → Prop
  | .finite x => x ≤ 0
  | .posInf => False
  | .negInf => True
  | .nan => False

/-- The Python check `isinstance(x, (int, float))`. -/
def PyVal.isNum : PyVal → Prop
  | .num _ => True
  | .nonNum => False

/-- The comparison `v <= 0` lifted to arguments (only ever evaluated on
numeric values in the code). -/
def PyVal.leZero : PyVal → Prop
  | .num v => v.leZero
  | .nonNum => False

/-- The `ValueError`s raised by the validation block of
`calculate_impact_radius`, one constructor per `raise` site. -/
inductive ImpactError where
  /-- `ValueError("All inputs must be numeric values")` -/
  | allNumeric
  /-- `ValueError("Density must be positive")` -/
  | densityPositive
  /-- `ValueError("Speed must be positive")` -/
  | speedPositive
  /-- `ValueError("Diameter must be positive")` -/
  | diameterPositive
deriving DecidableEq

open Classical in
/-- The validation block of `calculate_impact_radius`, returning the
first error raised (or `none`).  Mirrors the source order: first
`if not all(isinstance(x, (int, float)) for x in [density, speed, diameter])`,
then `density <= 0`, then `speed <= 0`, then `diameter <= 0`. -/
noncomputable def validate (density speed diameter : PyVal) : Option ImpactError :=
  if ¬ (density.isNum ∧ speed.isNum ∧ diameter.isNum) then some .allNumeric
  else if density.leZero then some .densityPositive
  else if speed.leZero then some .speedPositive
  else if diameter.leZero then some .diameterPositive
  else none

/-- `kinetic_energy = (math.pi / 12) * density * (diameter ** 3) * (speed ** 2)`. -/
noncomputable def kinetic_energy (density speed diameter : ℝ) : ℝ :=
  (Real.pi / 12) * density * diameter ^ 3 * speed ^ 2

/-- `severe_k = 1.8e-4` -/
def severe_k : ℝ := 1.8e-4

/-- `moderate_k = 4.0e-4` -/
def moderate_k : ℝ := 4.0e-4

/-- `light_k = 8.0e-4` -/
def light_k : ℝ := 8.0e-4

/-- `severe_radius_m = severe_k * (kinetic_energy ** (1/3))`. -/
noncomputable def severe_radius_m (density speed diameter : ℝ) : ℝ :=
  severe_k * (kinetic_energy density speed diameter) ^ ((1 : ℝ) / 3)

/-- `moderate_radius_m = moderate_k * (kinetic_energy ** (1/3))`. -/
noncomputable def moderate_radius_m (density speed diameter : ℝ) : ℝ :=
  moderate_k * (kinetic_energy density speed diameter) ^ ((1 : ℝ) / 3)

/-- `light_radius_m = light_k * (kinetic_energy ** (1/3))`. -/
noncomputable def light_radius_m (density speed diameter : ℝ) : ℝ :=
  light_k * (kinetic_energy density speed diameter) ^ ((1 : ℝ) / 3)

/-- `severe_radius_km = severe_radius_m / 1000`. -/
noncomputable def severe_radius_km (density speed diameter : ℝ) : ℝ :=
  severe_radius_m density speed diameter / 1000

/-- `moderate_radius_km = moderate_radius_m / 1000`. -/
noncomputable def moderate_radius_km (density speed diameter : ℝ) : ℝ :=
  moderate_radius_m density speed diameter / 1000

/-- `light_radius_km = light_radius_m / 1000`. -/
noncomputable def light_radius_km (density speed diameter : ℝ) : ℝ :=
  light_radius_m density speed diameter / 1000

open Classical in
/-- The classification block:
`if severe_radius_km > 5: "Severe" elif moderate_radius_km > 2: "Moderate" else: "Light"`. -/
noncomputable def damage_classification (density speed diameter : ℝ) : String :=
  if severe_radius_km density speed diameter > 5 then "Severe"
  else if moderate_radius_km density speed diameter > 2 then "Moderate"
  else "Light"

/-- The result dictionary of `calculate_impact_radius`. -/
structure ImpactResult where
  kinetic_energy_joules : ℝ
  severe_radius_km : ℝ
  moderate_radius_km : ℝ
  light_radius_km : ℝ
  damage_classification : String

/-- The computation performed by `calculate_impact_radius` on inputs
that passed validation. -/
noncomputable def calculate_impact_radius (density speed diameter : ℝ) : ImpactResult where
  kinetic_energy_joules := kinetic_energy density speed diameter
  severe_radius_km := severe_radius_km density speed diameter
  moderate_radius_km := moderate_radius_km density speed diameter
  light_radius_km := light_radius_km density speed diameter
  damage_classification := damage_classification density speed diameter

/- ### Helper lemmas -/

lemma kinetic_energy_pos {ρ v d : ℝ} (hρ : 0 < ρ) (hv : 0 < v) (hd : 0 < d) :
    0 < kinetic_energy ρ v d :=
  mul_pos (mul_pos (mul_pos (div_pos Real.pi_pos (by norm_num)) hρ) (pow_pos hd 3))
    (pow_pos hv 2)

lemma cube_root_pos {e : ℝ} (he : 0 < e) : 0 < e ^ ((1 : ℝ) / 3) :=
  Real.rpow_pos_of_pos he _

lemma cube_rpow_third {c : ℝ} (hc : 0 ≤ c) : (c ^ 3) ^ ((1 : ℝ) / 3) = c := by
  rw [← Real.rpow_natCast c 3, ← Real.rpow_mul hc]
  norm_num

lemma rpow_third_lt_of_lt_cube {e c : ℝ} (he : 0 ≤ e) (hc : 0 ≤ c) (h : e < c ^ 3) :
    e ^ ((1 : ℝ) / 3) < c := by
  have h1 : e ^ ((1 : ℝ) / 3) < (c ^ 3) ^ ((1 : ℝ) / 3) :=
    Real.rpow_lt_rpow he h (by norm_num)
  rwa [cube_rpow_third hc] at h1

lemma lt_rpow_third_of_cube_lt {e c : ℝ} (hc : 0 ≤ c) (h : c ^ 3 < e) :
    c < e ^ ((1 : ℝ) / 3) := by
  have h1 : (c ^ 3) ^ ((1 : ℝ) / 3) < e ^ ((1 : ℝ) / 3) :=
    Real.rpow_lt_rpow (by positivity) h (by norm_num)
  rwa [cube_rpow_third hc] at h1

lemma ke_lt_density {ρ ρ' v d : ℝ} (hv : 0 < v) (hd : 0 < d) (h : ρ < ρ') :
    kinetic_energy ρ v d < kinetic_energy ρ' v d := by
  unfold kinetic_energy
  have hπ : (0 : ℝ) < Real.pi / 12 := div_pos Real.pi_pos (by norm_num)
  exact mul_lt_mul_of_pos_right
    (mul_lt_mul_of_pos_right (mul_lt_mul_of_pos_left h hπ) (pow_pos hd 3)) (pow_pos hv 2)

lemma ke_lt_speed {ρ v v' d : ℝ} (hρ : 0 < ρ) (hv : 0 < v) (hd : 0 < d) (h : v < v') :
    kinetic_energy ρ v d < kinetic_energy ρ v' d := by
  unfold kinetic_energy
  have hbase : (0 : ℝ) < Real.pi / 12 * ρ * d ^ 3 :=
    mul_pos (mul_pos (div_pos Real.pi_pos (by norm_num)) hρ) (pow_pos hd 3)
  exact mul_lt_mul_of_pos_left (pow_lt_pow_left₀ h hv.le (by norm_num)) hbase

lemma ke_lt_diameter {ρ v d d' : ℝ} (hρ : 0 < ρ) (hv : 0 < v) (hd : 0 < d) (h : d < d') :
    kinetic_energy ρ v d < kinetic_energy ρ v d' := by
  unfold kinetic_energy
  have hbase : (0 : ℝ) < Real.pi / 12 * ρ := mul_pos (div_pos Real.pi_pos (by norm_num)) hρ
  exact mul_lt_mul_of_pos_right
    (mul_lt_mul_of_pos_left (pow_lt_pow_left₀ h hd.le (by norm_num)) hbase) (pow_pos hv 2)

lemma radius_km_lt {k e e' : ℝ} (hk : 0 < k) (he : 0 ≤ e) (h : e < e') :
    k * e ^ ((1 : ℝ) / 3) / 1000 < k * e' ^ ((1 : ℝ) / 3) / 1000 := by
  have h1 : e ^ ((1 : ℝ) / 3) < e' ^ ((1 : ℝ) / 3) :=
    Real.rpow_lt_rpow he h (by norm_num)
  exact (div_lt_div_iff_of_pos_right (by norm_num)).mpr (mul_lt_mul_of_pos_left h1 hk)

lemma moderate_eq_ratio_severe (ρ v d : ℝ) :
    moderate_radius_km ρ v d = (20 / 9) * severe_radius_km ρ v d := by
  unfold moderate_radius_km severe_radius_km moderate_radius_m severe_radius_m
    moderate_k severe_k
  ring_nf

/- ### Claim theorems -/

/-- Claim C2: for every valid input (all three parameters strictly positive
reals), the `kinetic_energy_joules` field of the result equals
`(π / 12) · density · diameter³ · speed²`. -/
theorem C2_kinetic_energy_formula (ρ v d : ℝ) (hρ : 0 < ρ) (hv : 0 < v) (hd : 0 < d) :
    (calculate_impact_radius ρ v d).kinetic_energy_joules =
      Real.pi / 12 * ρ * d ^ 3 * v ^ 2 := rfl

/-- Witness for C2 at the concrete valid input `(7800, 17000, 50)`. -/
theorem C2_kinetic_energy_formula_witness :
    (calculate_impact_radius 7800 17000 50).kinetic_energy_joules =
      Real.pi / 12 * 7800 * 50 ^ 3 * 17000 ^ 2 :=
  C2_kinetic_energy_formula 7800 17000 50 (by norm_num) (by norm_num) (by norm_num)

/-- Claim C3: for every valid input, each damage radius in kilometers equals
`k · E^(1/3) / 1000` with `k = 1.8e-4` (severe), `4.0e-4` (moderate),
`8.0e-4` (light), all three applied to the same cube root of the kinetic
energy `E`. -/
theorem C3_radius_formulas (ρ v d : ℝ) (hρ : 0 < ρ) (hv : 0 < v) (hd : 0 < d) :
    (calculate_impact_radius ρ v d).severe_radius_km =
        1.8e-4 * (kinetic_energy ρ v d) ^ ((1 : ℝ) / 3) / 1000 ∧
    (calculate_impact_radius ρ v d).moderate_radius_km =
        4.0e-4 * (kinetic_energy ρ v d) ^ ((1 : ℝ) / 3) / 1000 ∧
    (calculate_impact_radius ρ v d).light_radius_km =
        8.0e-4 * (kinetic_energy ρ v d) ^ ((1 : ℝ) / 3) / 1000 :=
  ⟨rfl, rfl, rfl⟩

/-- Witness for C3 at the concrete valid input `(7800, 17000, 50)`. -/
theorem C3_radius_formulas_witness :
    (calculate_impact_radius 7800 17000 50).severe_radius_km =
        1.8e-4 * (kinetic_energy 7800 17000 50) ^ ((1 : ℝ) / 3) / 1000 ∧
    (calculate_impact_radius 7800 17000 50).moderate_radius_km =
        4.0e-4 * (kinetic_energy 7800 17000 50) ^ ((1 : ℝ) / 3) / 1000 ∧
    (calculate_impact_radius 7800 17000 50).light_radius_km =
        8.0e-4 * (kinetic_energy 7800 17000 50) ^ ((1 : ℝ) / 3) / 1000 :=
  C3_radius_formulas 7800 17000 50 (by norm_num) (by norm_num) (by norm_num)

/-- Claim C10: for every valid input the radii stand in fixed,
input-independent ratios: `light_radius_km = 2 · moderate_radius_km` and
`moderate_radius_km = (4.0 / 1.8) · severe_radius_km`. -/
theorem C10_fixed_ratios (ρ v d : ℝ) (hρ : 0 < ρ) (hv : 0 < v) (hd : 0 < d) :
    (calculate_impact_radius ρ v d).light_radius_km =
        2 * (calculate_impact_radius ρ v d).moderate_radius_km ∧
    (calculate_impact_radius ρ v d).moderate_radius_km =
        4.0 / 1.8 * (calculate_impact_radius ρ v d).severe_radius_km := by
  simp only [calculate_impact_radius]
  unfold light_radius_km moderate_radius_km severe_radius_km
    light_radius_m moderate_radius_m severe_radius_m light_k moderate_k severe_k
  constructor <;> ring_nf

/-- Witness for C10 at the concrete valid input `(7800, 17000, 50)`. -/
theorem C10_fixed_ratios_witness :
    (calculate_impact_radius 7800 17000 50).light_radius_km =
        2 * (calculate_impact_radius 7800 17000 50).moderate_radius_km ∧
    (calculate_impact_radius 7800 17000 50).moderate_radius_km =
        4.0 / 1.8 * (calculate_impact_radius 7800 17000 50).severe_radius_km :=
  C10_fixed_ratios 7800 17000 50 (by norm_num) (by norm_num) (by norm_num)

/-- Claim C6: for every valid input the three radii of the result satisfy
`light_radius_km > moderate_radius_km > severe_radius_km > 0`. -/
theorem C6_radius_ordering (ρ v d : ℝ) (hρ : 0 < ρ) (hv : 0 < v) (hd : 0 < d) :
    (calculate_impact_radius ρ v d).light_radius_km >
        (calculate_impact_radius ρ v d).moderate_radius_km ∧
    (calculate_impact_radius ρ v d).moderate_radius_km >
        (calculate_impact_radius ρ v d).severe_radius_km ∧
    (calculate_impact_radius ρ v d).severe_radius_km > 0 := by
  have hc : 0 < (kinetic_energy ρ v d) ^ ((1 : ℝ) / 3) :=
    cube_root_pos (kinetic_energy_pos hρ hv hd)
  simp only [calculate_impact_radius]
  unfold light_radius_km moderate_radius_km severe_radius_km
    light_radius_m moderate_radius_m severe_radius_m light_k moderate_k severe_k
  refine ⟨?_, ?_, ?_⟩ <;> nlinarith [hc]

/-- Witness for C6 at the concrete valid input `(7800, 17000, 50)`. -/
theorem C6_radius_ordering_witness :
    (calculate_impact_radius 7800 17000 50).light_radius_km >
        (calculate_impact_radius 7800 17000 50).moderate_radius_km ∧
    (calculate_impact_radius 7800 17000 50).moderate_radius_km >
        (calculate_impact_radius 7800 17000 50).severe_radius_km ∧
    (calculate_impact_radius 7800 17000 50).severe_radius_km > 0 :=
  C6_radius_ordering 7800 17000 50 (by norm_num) (by norm_num) (by norm_num)

/-- Claim C1: for every valid input the classification is decided by
first-match priority: `"Severe"` when `severe_radius_km > 5`, otherwise
`"Moderate"` when `moderate_radius_km > 2`, otherwise `"Light"`; the
threshold is strict, so `severe_radius_km = 5` yields `"Moderate"`, not
`"Severe"`. -/
theorem C1_classification_priority (ρ v d : ℝ) (hρ : 0 < ρ) (hv : 0 < v) (hd : 0 < d) :
    (5 < severe_radius_km ρ v d →
        (calculate_impact_radius ρ v d).damage_classification = "Severe") ∧
    (¬ 5 < severe_radius_km ρ v d → 2 < moderate_radius_km ρ v d →
        (calculate_impact_radius ρ v d).damage_classification = "Moderate") ∧
    (¬ 5 < severe_radius_km ρ v d → ¬ 2 < moderate_radius_km ρ v d →
        (calculate_impact_radius ρ v d).damage_classification = "Light") ∧
    (severe_radius_km ρ v d = 5 →
        (calculate_impact_radius ρ v d).damage_classification = "Moderate") := by
  simp only [calculate_impact_radius]
  unfold damage_classification
  refine ⟨fun h1 => ?_, fun h1 h2 => ?_, fun h1 h2 => ?_, fun h5 => ?_⟩
  · rw [if_pos h1]
  · rw [if_neg h1, if_pos h2]
  · rw [if_neg h1, if_neg h2]
  · have h1 : ¬ 5 < severe_radius_km ρ v d := by rw [h5]; exact lt_irrefl 5
    have h2 : 2 < moderate_radius_km ρ v d := by
      rw [moderate_eq_ratio_severe, h5]; norm_num
    rw [if_neg h1, if_pos h2]

/-- Witness for C1 at the concrete valid input `(7800, 17000, 50)`. -/
theorem C1_classification_priority_witness :
    (5 < severe_radius_km 7800 17000 50 →
        (calculate_impact_radius 7800 17000 50).damage_classification = "Severe") ∧
    (¬ 5 < severe_radius_km 7800 17000 50 → 2 < moderate_radius_km 7800 17000 50 →
        (calculate_impact_radius 7800 17000 50).damage_classification = "Moderate") ∧
    (¬ 5 < severe_radius_km 7800 17000 50 → ¬ 2 < moderate_radius_km 7800 17000 50 →
        (calculate_impact_radius 7800 17000 50).damage_classification = "Light") ∧
    (severe_radius_km 7800 17000 50 = 5 →
        (calculate_impact_radius 7800 17000 50).damage_classification = "Moderate") :=
  C1_classification_priority 7800 17000 50 (by norm_num) (by norm_num) (by norm_num)

/-- Claim C7: for two valid inputs that agree on two parameters and differ by
a strictly larger value of the remaining one, the larger input yields strictly
larger kinetic energy and strictly larger severe, moderate and light radii. -/
theorem C7_monotonicity (ρ v d ρ' v' d' : ℝ) (hρ : 0 < ρ) (hv : 0 < v) (hd : 0 < d)
    (hcase : (ρ < ρ' ∧ v' = v ∧ d' = d) ∨ (ρ' = ρ ∧ v < v' ∧ d' = d) ∨
      (ρ' = ρ ∧ v' = v ∧ d < d')) :
    (calculate_impact_radius ρ v d).kinetic_energy_joules <
        (calculate_impact_radius ρ' v' d').kinetic_energy_joules ∧
    (calculate_impact_radius ρ v d).severe_radius_km <
        (calculate_impact_radius ρ' v' d').severe_radius_km ∧
    (calculate_impact_radius ρ v d).moderate_radius_km <
        (calculate_impact_radius ρ' v' d').moderate_radius_km ∧
    (calculate_impact_radius ρ v d).light_radius_km <
        (calculate_impact_radius ρ' v' d').light_radius_km := by
  have hE : kinetic_energy ρ v d < kinetic_energy ρ' v' d' := by
    rcases hcase with ⟨h, rfl, rfl⟩ | ⟨rfl, h, rfl⟩ | ⟨rfl, rfl, h⟩
    · exact ke_lt_density hv hd h
    · exact ke_lt_speed hρ hv hd h
    · exact ke_lt_diameter hρ hv hd h
  have hE0 : 0 ≤ kinetic_energy ρ v d := (kinetic_energy_pos hρ hv hd).le
  simp only [calculate_impact_radius]
  refine ⟨hE, ?_, ?_, ?_⟩
  · unfold severe_radius_km severe_radius_m
    exact radius_km_lt (by unfold severe_k; norm_num) hE0 hE
  · unfold moderate_radius_km moderate_radius_m
    exact radius_km_lt (by unfold moderate_k; norm_num) hE0 hE
  · unfold light_radius_km light_radius_m
    exact radius_km_lt (by unfold light_k; norm_num) hE0 hE

/-- Witness for C7 at the concrete valid inputs `(7800, 17000, 50)` and
`(7900, 17000, 50)` (density increased, speed and diameter unchanged). -/
theorem C7_monotonicity_witness :
    (calculate_impact_radius 7800 17000 50).kinetic_energy_joules <
        (calculate_impact_radius 7900 17000 50).kinetic_energy_joules ∧
    (calculate_impact_radius 7800 17000 50).severe_radius_km <
        (calculate_impact_radius 7900 17000 50).severe_radius_km ∧
    (calculate_impact_radius 7800 17000 50).moderate_radius_km <
        (calculate_impact_radius 7900 17000 50).moderate_radius_km ∧
    (calculate_impact_radius 7800 17000 50).light_radius_km <
        (calculate_impact_radius 7900 17000 50).light_radius_km :=
  C7_monotonicity 7800 17000 50 7900 17000 50 (by norm_num) (by norm_num) (by norm_num)
    (Or.inl ⟨by norm_num, rfl, rfl⟩)

/- ### Concrete evaluations for the two scenario claims -/

lemma ke_7800_eq : kinetic_energy 7800 17000 50 = Real.pi * 23481250000000000 := by
  unfold kinetic_energy; ring

lemma ke_7800_lb : (73768000000000000 : ℝ) < kinetic_energy 7800 17000 50 := by
  rw [ke_7800_eq]; linarith [Real.pi_gt_d6]

lemma ke_7800_ub : kinetic_energy 7800 17000 50 < 73769000000000000 := by
  rw [ke_7800_eq]; linarith [Real.pi_lt_d6]

lemma cbrt_7800_lb : (419000 : ℝ) < (kinetic_energy 7800 17000 50) ^ ((1 : ℝ) / 3) :=
  lt_rpow_third_of_cube_lt (by norm_num) (lt_trans (by norm_num) ke_7800_lb)

lemma cbrt_7800_ub : (kinetic_energy 7800 17000 50) ^ ((1 : ℝ) / 3) < 420000 :=
  rpow_third_lt_of_lt_cube
    (kinetic_energy_pos (by norm_num) (by norm_num) (by norm_num)).le
    (by norm_num) (lt_trans ke_7800_ub (by norm_num))

lemma severe_7800_lb : (0.075 : ℝ) < severe_radius_km 7800 17000 50 := by
  unfold severe_radius_km severe_radius_m severe_k
  nlinarith [cbrt_7800_lb]

lemma severe_7800_ub : severe_radius_km 7800 17000 50 < 0.076 := by
  unfold severe_radius_km severe_radius_m severe_k
  nlinarith [cbrt_7800_ub]

lemma moderate_7800_lb : (0.167 : ℝ) < moderate_radius_km 7800 17000 50 := by
  unfold moderate_radius_km moderate_radius_m moderate_k
  nlinarith [cbrt_7800_lb]

lemma moderate_7800_ub : moderate_radius_km 7800 17000 50 < 0.168 := by
  unfold moderate_radius_km moderate_radius_m moderate_k
  nlinarith [cbrt_7800_ub]

lemma light_7800_lb : (0.335 : ℝ) < light_radius_km 7800 17000 50 := by
  unfold light_radius_km light_radius_m light_k
  nlinarith [cbrt_7800_lb]

lemma light_7800_ub : light_radius_km 7800 17000 50 < 0.336 := by
  unfold light_radius_km light_radius_m light_k
  nlinarith [cbrt_7800_ub]

lemma classification_7800 :
    damage_classification 7800 17000 50 = "Light" := by
  unfold damage_classification
  rw [if_neg (by push_neg; linarith [severe_7800_ub]),
    if_neg (by push_neg; linarith [moderate_7800_ub])]

lemma ke_3000_eq : kinetic_energy 3000 20000 200 = Real.pi * 800000000000000000 := by
  unfold kinetic_energy; ring

lemma ke_3000_lb : (2513273600000000000 : ℝ) < kinetic_energy 3000 20000 200 := by
  rw [ke_3000_eq]; linarith [Real.pi_gt_d6]

lemma ke_3000_ub : kinetic_energy 3000 20000 200 < 2513274400000000000 := by
  rw [ke_3000_eq]; linarith [Real.pi_lt_d6]

lemma cbrt_3000_lb : (1350000 : ℝ) < (kinetic_energy 3000 20000 200) ^ ((1 : ℝ) / 3) :=
  lt_rpow_third_of_cube_lt (by norm_num) (lt_trans (by norm_num) ke_3000_lb)

lemma cbrt_3000_ub : (kinetic_energy 3000 20000 200) ^ ((1 : ℝ) / 3) < 1370000 :=
  rpow_third_lt_of_lt_cube
    (kinetic_energy_pos (by norm_num) (by norm_num) (by norm_num)).le
    (by norm_num) (lt_trans ke_3000_ub (by norm_num))

lemma severe_3000_lb : (0.24 : ℝ) < severe_radius_km 3000 20000 200 := by
  unfold severe_radius_km severe_radius_m severe_k
  nlinarith [cbrt_3000_lb]

lemma severe_3000_ub : severe_radius_km 3000 20000 200 < 0.25 := by
  unfold severe_radius_km severe_radius_m severe_k
  nlinarith [cbrt_3000_ub]

lemma moderate_3000_lb : (0.54 : ℝ) < moderate_radius_km 3000 20000 200 := by
  unfold moderate_radius_km moderate_radius_m moderate_k
  nlinarith [cbrt_3000_lb]

lemma moderate_3000_ub : moderate_radius_km 3000 20000 200 < 0.55 := by
  unfold moderate_radius_km moderate_radius_m moderate_k
  nlinarith [cbrt_3000_ub]

lemma classification_3000 :
    damage_classification 3000 20000 200 = "Light" := by
  unfold damage_classification
  rw [if_neg (by push_neg; linarith [severe_3000_ub]),
    if_neg (by push_neg; linarith [moderate_3000_ub])]

/-- Claim C8, counterexample: at `(7800, 17000, 50)` the kinetic energy
exceeds `7×10¹⁶` J (so it is not ≈ `4.34×10¹⁴` J), the severe radius is
below `0.1` km (not ≈ `1.4`), the moderate radius below `0.2` km (not
≈ `3.1`), and the light radius below `0.4` km (not ≈ `6.2`). -/
theorem C8_counterexample :
    (70000000000000000 : ℝ) < (calculate_impact_radius 7800 17000 50).kinetic_energy_joules ∧
    (calculate_impact_radius 7800 17000 50).severe_radius_km < 0.1 ∧
    (calculate_impact_radius 7800 17000 50).moderate_radius_km < 0.2 ∧
    (calculate_impact_radius 7800 17000 50).light_radius_km < 0.4 := by
  simp only [calculate_impact_radius]
  exact ⟨lt_trans (by norm_num) ke_7800_lb, lt_trans severe_7800_ub (by norm_num),
    lt_trans moderate_7800_ub (by norm_num), lt_trans light_7800_ub (by norm_num)⟩

/-- Claim C8 (amended): for the input `density = 7800`, `speed = 17000`,
`diameter = 50` the §4.2 formulas yield kinetic energy
≈ `7.377×10¹⁶` J (between `7.3768×10¹⁶` and `7.3769×10¹⁶`), severe radius
≈ `0.0755` km, moderate radius ≈ `0.1678` km, light radius ≈ `0.3355` km,
and the classification `"Light"`. -/
theorem C8_actual_values :
    (73768000000000000 : ℝ) < (calculate_impact_radius 7800 17000 50).kinetic_energy_joules ∧
    (calculate_impact_radius 7800 17000 50).kinetic_energy_joules < 73769000000000000 ∧
    (0.075 : ℝ) < (calculate_impact_radius 7800 17000 50).severe_radius_km ∧
    (calculate_impact_radius 7800 17000 50).severe_radius_km < 0.076 ∧
    (0.167 : ℝ) < (calculate_impact_radius 7800 17000 50).moderate_radius_km ∧
    (calculate_impact_radius 7800 17000 50).moderate_radius_km < 0.168 ∧
    (0.335 : ℝ) < (calculate_impact_radius 7800 17000 50).light_radius_km ∧
    (calculate_impact_radius 7800 17000 50).light_radius_km < 0.336 ∧
    (calculate_impact_radius 7800 17000 50).damage_classification = "Light" := by
  simp only [calculate_impact_radius]
  exact ⟨ke_7800_lb, ke_7800_ub, severe_7800_lb, severe_7800_ub, moderate_7800_lb,
    moderate_7800_ub, light_7800_lb, light_7800_ub, classification_7800⟩

/-- Claim C9, counterexample: at `(3000, 20000, 200)` the severe radius does
not exceed 5 km and the classification is not `"Severe"`. -/
theorem C9_counterexample :
    ¬ 5 < severe_radius_km 3000 20000 200 ∧
    (calculate_impact_radius 3000 20000 200).damage_classification ≠ "Severe" := by
  constructor
  · push_neg; linarith [severe_3000_ub]
  · show damage_classification 3000 20000 200 ≠ "Severe"
    rw [classification_3000]; decide

/-- Claim C9 (amended): for the input `density = 3000`, `speed = 20000`,
`diameter = 200` the severe radius is ≈ `0.245` km (below 5 km) and the
moderate radius ≈ `0.544` km (below 2 km), so the returned classification is
`"Light"`, not `"Severe"`. -/
theorem C9_actual_values :
    (0.24 : ℝ) < (calculate_impact_radius 3000 20000 200).severe_radius_km ∧
    (calculate_impact_radius 3000 20000 200).severe_radius_km < 0.25 ∧
    (0.54 : ℝ) < (calculate_impact_radius 3000 20000 200).moderate_radius_km ∧
    (calculate_impact_radius 3000 20000 200).moderate_radius_km < 0.55 ∧
    (calculate_impact_radius 3000 20000 200).damage_classification = "Light" := by
  simp only [calculate_impact_radius]
  exact ⟨severe_3000_lb, severe_3000_ub, moderate_3000_lb, moderate_3000_ub,
    classification_3000⟩

/- ### Validator claims -/

/-- Claim C4, counterexample: a parameter equal to `+inf` or `nan` is a
non-finite number, yet validation succeeds (returns no error), because the
code only checks `isinstance(x, (int, float))` and `x <= 0`, and neither
`inf <= 0` nor `nan <= 0` holds. -/
theorem C4_counterexample :
    validate (.num .posInf) (.num (.finite 17000)) (.num (.finite 50)) = none ∧
    validate (.num .nan) (.num (.finite 17000)) (.num (.finite 50)) = none := by
  constructor <;>
    norm_num [validate, PyVal.isNum, PyVal.leZero, PyNum.leZero]

/-- Claim C4 (amended): `calculate_impact_radius` fails with a validation
error if and only if some parameter is non-numeric or compares `<= 0`
(IEEE comparison): `-inf` is rejected as non-positive, while `+inf` and
`nan` pass validation — finiteness itself is never checked. -/
theorem C4_validation_characterization :
    (∀ density speed diameter : PyVal,
      validate density speed diameter = none ↔
        density.isNum ∧ speed.isNum ∧ diameter.isNum ∧
        ¬ density.leZero ∧ ¬ speed.leZero ∧ ¬ diameter.leZero) ∧
    validate (.num .negInf) (.num (.finite 17000)) (.num (.finite 50)) =
      some .densityPositive := by
  constructor
  · intro density speed diameter
    unfold validate
    split_ifs with h1 h2 h3 h4 <;> simp_all
  · norm_num [validate, PyVal.isNum, PyVal.leZero, PyNum.leZero]

/-- Witness for C4 (amended) at the concrete valid call
`(7800, 17000, 50)`: all parameters numeric and positive, so validation
returns no error. -/
theorem C4_validation_characterization_witness :
    validate (.num (.finite 7800)) (.num (.finite 17000)) (.num (.finite 50)) = none :=
  (C4_validation_characterization.1 _ _ _).mpr
    ⟨trivial, trivial, trivial, by norm_num [PyVal.leZero, PyNum.leZero],
      by norm_num [PyVal.leZero, PyNum.leZero], by norm_num [PyVal.leZero, PyNum.leZero]⟩

/-- Claim C5, counterexample: with a non-positive (numeric) density and a
non-numeric speed, the reported error is the generic
`"All inputs must be numeric values"` error, not an error about density,
because the code checks numeric-ness of all three parameters before any
positivity check. -/
theorem C5_counterexample :
    validate (.num (.finite (-1000))) .nonNum (.num (.finite 50)) =
      some .allNumeric ∧
    ImpactError.allNumeric ≠ ImpactError.densityPositive := by
  constructor
  · norm_num [validate, PyVal.isNum, PyVal.leZero, PyNum.leZero]
  · decide

/-- Claim C5 (amended): the numeric-type check runs first over all three
parameters together and, when violated, produces the single generic
`"All inputs must be numeric values"` error naming no field; only when all
three parameters are numeric are the positivity checks performed, in the
order density → speed → diameter, the first non-positive field determining
the single reported error. -/
theorem C5_validation_order (density speed diameter : PyVal) :
    (¬ (density.isNum ∧ speed.isNum ∧ diameter.isNum) →
        validate density speed diameter = some .allNumeric) ∧
    (density.isNum → speed.isNum → diameter.isNum → density.leZero →
        validate density speed diameter = some .densityPositive) ∧
    (density.isNum → speed.isNum → diameter.isNum →
      ¬ density.leZero → speed.leZero →
        validate density speed diameter = some .speedPositive) ∧
    (density.isNum → speed.isNum → diameter.isNum →
      ¬ density.leZero → ¬ speed.leZero → diameter.leZero →
        validate density speed diameter = some .diameterPositive) := by
  unfold validate
  refine ⟨fun h => ?_, fun h1 h2 h3 h4 => ?_, fun h1 h2 h3 h4 h5 => ?_,
    fun h1 h2 h3 h4 h5 h6 => ?_⟩
  · rw [if_pos h]
  · rw [if_neg (not_not.mpr ⟨h1, h2, h3⟩), if_pos h4]
  · rw [if_neg (not_not.mpr ⟨h1, h2, h3⟩), if_neg h4, if_pos h5]
  · rw [if_neg (not_not.mpr ⟨h1, h2, h3⟩), if_neg h4, if_neg h5, if_pos h6]

/-- Witness for C5 (amended) at the concrete call
`(7800, -5, 50)` (all numeric, speed non-positive): the reported error is
the speed error. -/
theorem C5_validation_order_witness :
    validate (.num (.finite 7800)) (.num (.finite (-5))) (.num (.finite 50)) =
      some .speedPositive :=
  (C5_validation_order _ _ _).2.2.1 trivial trivial trivial
    (by norm_num [PyVal.leZero, PyNum.leZero])
    (by norm_num [PyVal.leZero, PyNum.leZero])

end AsteroidImpact
